import Mathlib

/-!
Shallow embedding of `src/libuavcan/src/transport/transfer_receiver.cpp`
(`uavcan::TransferReceiver`): per-peer reassembly of multi-frame transfers.
Machine integers are modelled as `Nat` with explicit truncation where the
C++ code can actually truncate.  Parts of the repository that live in the
missing header (`transfer_receiver.hpp`) — the numeric constants, the
`TransferID` wraparound arithmetic, the frame accessors and the transfer
buffer interface — are modelled from the specification, as marked below.
-/

namespace Uavcan

/-- Result codes of `TransferReceiver::receive` / `TransferReceiver::addFrame`. -/
inductive ResultCode where
  | RESULT_NOT_COMPLETE
  | RESULT_SINGLE_FRAME
  | RESULT_COMPLETE
deriving DecidableEq, Repr

/-- Classification of an incoming transfer ID relative to the expected one. -/
inductive TidRelation where
  | TID_SAME
  | TID_FUTURE
  | TID_REPEAT
deriving DecidableEq, Repr

/-- `static const int CRC_LEN = 2;` from the source file. -/
def CRC_LEN : Nat := 2

/-- Modelled from the spec: `TransferID::BITLEN`, the width N of the
wraparound transfer-ID space ("a small N such as 5"). -/
def TID_BITLEN : Nat := 5

/-- Modelled from the spec: `Frame::FRAME_INDEX_MAX`, the maximum
representable frame index (`INDEX_MAX` in the spec). -/
def FRAME_INDEX_MAX : Nat := 62

/-- Modelled from the spec: `MIN_TRANSFER_INTERVAL` (`MIN_INTERVAL`). -/
def MIN_TRANSFER_INTERVAL : Nat := 1000

/-- Modelled from the spec: `MAX_TRANSFER_INTERVAL` (`MAX_INTERVAL`). -/
def MAX_TRANSFER_INTERVAL : Nat := 10000000

/-- Modelled from the spec: `DEFAULT_TRANSFER_INTERVAL` (`DEFAULT_INTERVAL`),
a default value inside `[MIN_INTERVAL, MAX_INTERVAL]`. -/
def DEFAULT_TRANSFER_INTERVAL : Nat := 500000

/-- Truncation modulus of the `uint32_t` cast in `updateTransferTimings`. -/
def U32_MOD : Nat := 2 ^ 32

/-- Modelled from the spec: the frame accessor interface — payload bytes,
interface id, frame index, transfer id, first/last flags and the two
timestamps (`RxFrame` in the source). -/
structure RxFrame where
  payload : List Nat
  iface_index : Nat
  frame_index : Nat
  transfer_id : Nat
  first_frame : Bool
  last_frame : Bool
  ts_monotonic : Nat
  ts_utc : Nat
deriving DecidableEq, Repr

/-- The mutable state of `TransferReceiver` (fields as in the source). -/
structure TransferReceiver where
  tid : Nat
  prev_transfer_ts_monotonic : Nat
  this_transfer_ts_monotonic : Nat
  first_frame_ts_utc : Nat
  this_transfer_crc : Nat
  transfer_interval : Nat
  iface_index : Nat
  next_frame_index : Nat
  buffer_write_pos : Nat
deriving DecidableEq, Repr

/-- Modelled from the spec: `TransferID::forwardDistance` — the forward
(non-negative, wraparound-aware) distance from `a` to `b` in the
`bitlen`-bit modular space. -/
def forwardDistance (bitlen a b : Nat) : Nat :=
  (b % 2 ^ bitlen + (2 ^ bitlen - a % 2 ^ bitlen)) % 2 ^ bitlen

/-- Modelled from the spec: `TransferID::increment` — increment by one with
wraparound over the `TID_BITLEN`-bit space. -/
def tidIncrement (a : Nat) : Nat := (a + 1) % 2 ^ TID_BITLEN

/-- `TransferReceiver::getTidRelation`, as a pure function of the bit width
and the two TID values (the source compares the forward distance with
`(1 << TransferID::BITLEN) / 2`). -/
def getTidRelationAt (bitlen a b : Nat) : TidRelation :=
  if forwardDistance bitlen a b = 0 then TidRelation.TID_SAME
  else if forwardDistance bitlen a b < 2 ^ bitlen / 2 then TidRelation.TID_FUTURE
  else TidRelation.TID_REPEAT

/-- `TransferReceiver::getTidRelation` on the receiver state and a frame. -/
def getTidRelation (s : TransferReceiver) (f : RxFrame) : TidRelation :=
  getTidRelationAt TID_BITLEN s.tid f.transfer_id

/-- The clamp of the observed inter-transfer gap:
`std::max(std::min(interval, MAX_TRANSFER_INTERVAL), MIN_TRANSFER_INTERVAL)`. -/
def clampInterval (x : Nat) : Nat :=
  max (min x MAX_TRANSFER_INTERVAL) MIN_TRANSFER_INTERVAL

/-- `TransferReceiver::updateTransferTimings`: shift the transfer-start
timestamps and fold the observed gap into the adaptive interval estimate
(weight 7/8 old, 1/8 new, sample clamped to the interval bounds).  In the
source `prev_prev_ts` is the old value of `prev_transfer_ts_monotonic_`
and the condition is read after the shift `prev := this`; here it is
written directly in terms of the pre-shift fields. -/
def updateTransferTimings (s : TransferReceiver) : TransferReceiver :=
  if s.prev_transfer_ts_monotonic ≠ 0 ∧ s.this_transfer_ts_monotonic ≠ 0 ∧
      s.prev_transfer_ts_monotonic ≤ s.this_transfer_ts_monotonic then
    { s with
        prev_transfer_ts_monotonic := s.this_transfer_ts_monotonic,
        transfer_interval := (s.transfer_interval * 7 +
          clampInterval (s.this_transfer_ts_monotonic -
            s.prev_transfer_ts_monotonic)) / 8 % U32_MOD }
  else { s with prev_transfer_ts_monotonic := s.this_transfer_ts_monotonic }

/-- `TransferReceiver::prepareForNextTransfer`. -/
def prepareForNextTransfer (s : TransferReceiver) : TransferReceiver :=
  { s with tid := tidIncrement s.tid, next_frame_index := 0, buffer_write_pos := 0 }

/-- `TransferReceiver::validate`: structural/sequencing legality of a frame
against the current state (pure, read-only). -/
def validate (s : TransferReceiver) (f : RxFrame) : Bool :=
  decide (s.iface_index = f.iface_index) &&
  !(f.first_frame && !f.last_frame && decide (f.payload.length < CRC_LEN)) &&
  !(decide (f.frame_index = FRAME_INDEX_MAX) && !f.last_frame) &&
  decide (f.frame_index = s.next_frame_index) &&
  decide (getTidRelation s f = TidRelation.TID_SAME)

/-- Little-endian extraction of the 16-bit transfer CRC from the first two
payload bytes: `(payload[0] & 0xFF) | (uint16(payload[1] & 0xFF) << 8)`. -/
def extractCrc (payload : List Nat) : Nat :=
  payload.getD 0 0 % 256 + payload.getD 1 0 % 256 * 256

/-- `TransferReceiver::writePayload`, parametrised over the virtual
`TransferBufferBase::write` of the backing buffer: `wr data offset bytes`
returns the reported byte count and the new buffer contents. -/
def writePayloadW (wr : List Nat → Nat → List Nat → Int × List Nat)
    (s : TransferReceiver) (data : List Nat) (f : RxFrame) :
    Bool × TransferReceiver × List Nat :=
  if f.first_frame then
    if f.payload.length < CRC_LEN then (false, s, data)
    else
      let s1 := { s with this_transfer_crc := extractCrc f.payload }
      let eff := f.payload.drop CRC_LEN
      let r := wr data s1.buffer_write_pos eff
      if r.1 = (eff.length : Int) then
        (true, { s1 with buffer_write_pos := s1.buffer_write_pos + eff.length }, r.2)
      else (false, s1, r.2)
  else
    let r := wr data s.buffer_write_pos f.payload
    if r.1 = (f.payload.length : Int) then
      (true, { s with buffer_write_pos := s.buffer_write_pos + f.payload.length }, r.2)
    else (false, s, r.2)

/-- Overwrite `data` at `offset` with `bytes` (zero-padding any gap). -/
def listWriteAt (data : List Nat) (offset : Nat) (bytes : List Nat) : List Nat :=
  data.take offset ++ List.replicate (offset - data.length) 0 ++ bytes ++
    data.drop (offset + bytes.length)

/-- Modelled from the spec: the payload buffer's
`write(offset, bytes, length) -> bytesWritten` — accepts up to
`maxSize - offset` bytes and reports how many were accepted. -/
def bufWrite (maxSize : Nat) (data : List Nat) (offset : Nat) (bytes : List Nat) :
    Int × List Nat :=
  let n := min bytes.length (maxSize - offset)
  ((n : Int), listWriteAt data offset (bytes.take n))

/-- `TransferReceiver::receive`.  The buffer accessor is modelled from the
spec as the optionally-held buffer contents (`access` returns it,
`create` succeeds iff `canCreate` and yields an empty buffer of capacity
`maxSize`, `remove` drops it). -/
def receive (maxSize : Nat) (canCreate : Bool) (s : TransferReceiver)
    (tba : Option (List Nat)) (f : RxFrame) :
    TransferReceiver × Option (List Nat) × ResultCode :=
  let s := if f.first_frame then
      { s with this_transfer_ts_monotonic := f.ts_monotonic,
               first_frame_ts_utc := f.ts_utc }
    else s
  if f.first_frame && f.last_frame then
    let s := prepareForNextTransfer (updateTransferTimings s)
    ({ s with this_transfer_crc := 0 }, none, ResultCode.RESULT_SINGLE_FRAME)
  else
    match (match tba with
           | some d => some d
           | none => if canCreate then some ([] : List Nat) else none) with
    | none => (prepareForNextTransfer s, tba, ResultCode.RESULT_NOT_COMPLETE)
    | some d =>
      let w := writePayloadW (bufWrite maxSize) s d f
      if w.1 then
        let s2 := { w.2.1 with next_frame_index := w.2.1.next_frame_index + 1 }
        if f.last_frame then
          (prepareForNextTransfer (updateTransferTimings s2), some w.2.2,
            ResultCode.RESULT_COMPLETE)
        else (s2, some w.2.2, ResultCode.RESULT_NOT_COMPLETE)
      else (prepareForNextTransfer w.2.1, none, ResultCode.RESULT_NOT_COMPLETE)

/-- `INTERVAL_MULT = (1 << TransferID::BITLEN) / 2 + 1` from `isTimedOut`. -/
def INTERVAL_MULT : Nat := 2 ^ TID_BITLEN / 2 + 1

/-- `TransferReceiver::isTimedOut`. -/
def isTimedOut (s : TransferReceiver) (ts_monotonic : Nat) : Bool :=
  if ts_monotonic ≤ s.this_transfer_ts_monotonic then false
  else decide (ts_monotonic - s.this_transfer_ts_monotonic >
    s.transfer_interval * INTERVAL_MULT)

/-- Modelled from the spec: `TransferReceiver::isInitialized` — whether any
transfer has ever been started (the current transfer-start timestamp is
set; it is never set to zero because of the monotonicity guard). -/
def isInitialized (s : TransferReceiver) : Bool :=
  decide (s.this_transfer_ts_monotonic ≠ 0)

/-- The monotonicity guard at the top of `TransferReceiver::addFrame`. -/
def monoGuardDrop (s : TransferReceiver) (f : RxFrame) : Bool :=
  decide (f.ts_monotonic = 0) ||
  decide (f.ts_monotonic < s.prev_transfer_ts_monotonic) ||
  decide (f.ts_monotonic < s.this_transfer_ts_monotonic)

/-- The per-interface staleness trigger of `addFrame`:
`frame ts - this_transfer_ts > transfer_interval * 2`. -/
def ifaceTimedOut (s : TransferReceiver) (f : RxFrame) : Bool :=
  decide (f.ts_monotonic - s.this_transfer_ts_monotonic > s.transfer_interval * 2)

/-- The restart decision of `addFrame` ("FSM, the hard way"). -/
def needRestart (s : TransferReceiver) (f : RxFrame) : Bool :=
  !isInitialized s ||
  isTimedOut s f.ts_monotonic ||
  (decide (f.iface_index = s.iface_index) && f.first_frame &&
    decide (getTidRelation s f = TidRelation.TID_FUTURE)) ||
  (ifaceTimedOut s f && f.first_frame &&
    decide (getTidRelation s f = TidRelation.TID_FUTURE))

/-- The state mutation of the restart block of `addFrame`: adopt the frame's
interface and transfer ID, reset the frame index, write cursor and CRC. -/
def restartState (s : TransferReceiver) (f : RxFrame) : TransferReceiver :=
  { s with iface_index := f.iface_index, tid := f.transfer_id,
           next_frame_index := 0, buffer_write_pos := 0, this_transfer_crc := 0 }

/-- The receiver state after the restart decision of `addFrame`. -/
def admState (s : TransferReceiver) (f : RxFrame) : TransferReceiver :=
  if needRestart s f then restartState s f else s

/-- The held buffer after the restart decision of `addFrame` (`tba.remove()`
runs on restart). -/
def admTba (tba : Option (List Nat)) (s : TransferReceiver) (f : RxFrame) :
    Option (List Nat) :=
  if needRestart s f then none else tba

/-- `TransferReceiver::addFrame`: the top-level per-frame entry point. -/
def addFrame (maxSize : Nat) (canCreate : Bool) (s : TransferReceiver)
    (tba : Option (List Nat)) (f : RxFrame) :
    TransferReceiver × Option (List Nat) × ResultCode :=
  if monoGuardDrop s f then (s, tba, ResultCode.RESULT_NOT_COMPLETE)
  else
    let s1 := admState s f
    let tba1 := admTba tba s f
    if needRestart s f && !f.first_frame then
      ({ s1 with tid := tidIncrement s1.tid }, none, ResultCode.RESULT_NOT_COMPLETE)
    else if validate s1 f then receive maxSize canCreate s1 tba1 f
    else (s1, tba1, ResultCode.RESULT_NOT_COMPLETE)

/-- Fold `addFrame` over a list of frames, returning the final state and
held buffer. -/
def runFrames (maxSize : Nat) (canCreate : Bool) :
    TransferReceiver → Option (List Nat) → List RxFrame →
    TransferReceiver × Option (List Nat)
  | s, tba, [] => (s, tba)
  | s, tba, f :: fs =>
    let r := addFrame maxSize canCreate s tba f
    runFrames maxSize canCreate r.1 r.2.1 fs

/-- Fold `addFrame` over a list of frames, returning the result codes. -/
def runResults (maxSize : Nat) (canCreate : Bool) :
    TransferReceiver → Option (List Nat) → List RxFrame → List ResultCode
  | _, _, [] => []
  | s, tba, f :: fs =>
    let r := addFrame maxSize canCreate s tba f
    r.2.2 :: runResults maxSize canCreate r.1 r.2.1 fs

/-- The bytes of a frame that reach the buffer (the first frame loses its
2-byte CRC header). -/
def effPayload (f : RxFrame) : List Nat :=
  if f.first_frame then f.payload.drop CRC_LEN else f.payload

/-- One frame of a stream passes admission and validation: it survives the
monotonicity guard, does not hit the non-first-frame restart bailout, is
validated against the post-restart state, and fits into the buffer. -/
def goodStep (maxSize : Nat) (s : TransferReceiver) (f : RxFrame) : Bool :=
  !monoGuardDrop s f &&
  (!needRestart s f || f.first_frame) &&
  validate (admState s f) f &&
  decide ((admState s f).buffer_write_pos + (effPayload f).length ≤ maxSize)

/-- Every frame of the stream passes admission and validation at the state
the run actually reaches. -/
def goodStream (maxSize : Nat) (canCreate : Bool) :
    TransferReceiver → Option (List Nat) → List RxFrame → Bool
  | _, _, [] => true
  | s, tba, f :: fs =>
    goodStep maxSize s f &&
    goodStream maxSize canCreate (addFrame maxSize canCreate s tba f).1
      (addFrame maxSize canCreate s tba f).2.1 fs

/-- Shape of the continuation of a multi-frame stream: non-first frames,
non-last until the final frame which is last. -/
def midShape : List RxFrame → Bool
  | [] => false
  | [f] => !f.first_frame && f.last_frame
  | f :: g :: fs => !f.first_frame && !f.last_frame && midShape (g :: fs)

/-- Modelled from the spec: the freshly constructed receiver — timestamps
and counters zero, adaptive interval at its default. -/
def initialReceiver : TransferReceiver :=
  { tid := 0, prev_transfer_ts_monotonic := 0, this_transfer_ts_monotonic := 0,
    first_frame_ts_utc := 0, this_transfer_crc := 0,
    transfer_interval := DEFAULT_TRANSFER_INTERVAL, iface_index := 0,
    next_frame_index := 0, buffer_write_pos := 0 }

/-- Truncated `uint64` subtraction `a - b` (both operands reduced mod 2^64). -/
def wrapSub64 (a b : Nat) : Nat := (a % 2 ^ 64 + (2 ^ 64 - b % 2 ^ 64)) % 2 ^ 64

/-- Receiver mid-way through a multi-frame transfer on interface 0
(transfer ID 3, one frame already assembled, transfer start at t = 1000). -/
def c2State : TransferReceiver :=
  { tid := 3, prev_transfer_ts_monotonic := 500, this_transfer_ts_monotonic := 1000,
    first_frame_ts_utc := 0, this_transfer_crc := 4660, transfer_interval := 1000,
    iface_index := 0, next_frame_index := 1, buffer_write_pos := 1 }

/-- First-frame with a FUTURE transfer ID arriving on interface 1 while the
transfer of `c2State` is neither timed out nor stale. -/
def c2Frame : RxFrame :=
  { payload := [1, 2, 3], iface_index := 1, frame_index := 0, transfer_id := 4,
    first_frame := true, last_frame := false, ts_monotonic := 1500, ts_utc := 0 }

/-- Receiver state right after completing transfer ID 3 (expected ID is now
4, frame index and write cursor already reset, CRC of the finished
transfer still latched). -/
def c6State : TransferReceiver :=
  { tid := 4, prev_transfer_ts_monotonic := 1000, this_transfer_ts_monotonic := 1000,
    first_frame_ts_utc := 0, this_transfer_crc := 4660, transfer_interval := 1000,
    iface_index := 0, next_frame_index := 0, buffer_write_pos := 0 }

/-- A frame of the completed transfer (ID 3, stale index 1) replayed long
after completion — late enough that the receiver timeout has expired. -/
def c6Frame : RxFrame :=
  { payload := [7], iface_index := 0, frame_index := 1, transfer_id := 3,
    first_frame := false, last_frame := true, ts_monotonic := 20000, ts_utc := 0 }

/-- The same replayed frame arriving shortly after completion, before the
receiver timeout expires. -/
def c6FrameEarly : RxFrame :=
  { payload := [7], iface_index := 0, frame_index := 1, transfer_id := 3,
    first_frame := false, last_frame := true, ts_monotonic := 2000, ts_utc := 0 }

/-- Receiver awaiting transfer ID 4 on interface 0 (initialized at
t = 1000, default-ish interval). -/
def c8State : TransferReceiver :=
  { tid := 4, prev_transfer_ts_monotonic := 1000, this_transfer_ts_monotonic := 1000,
    first_frame_ts_utc := 0, this_transfer_crc := 4660, transfer_interval := 1000,
    iface_index := 0, next_frame_index := 0, buffer_write_pos := 0 }

/-- A single-frame transfer (first and last) with the expected transfer
ID 4 on interface 0. -/
def c8Frame : RxFrame :=
  { payload := [5, 6], iface_index := 0, frame_index := 0, transfer_id := 4,
    first_frame := true, last_frame := true, ts_monotonic := 2000, ts_utc := 33 }

/-- First frame of the spec's three-frame scenario: 2-byte little-endian
CRC 0x1234 followed by the data byte 10. -/
def c1f0 : RxFrame :=
  { payload := [52, 18, 10], iface_index := 0, frame_index := 0, transfer_id := 0,
    first_frame := true, last_frame := false, ts_monotonic := 100, ts_utc := 0 }

/-- Middle frame of the three-frame scenario: data byte 11. -/
def c1f1 : RxFrame :=
  { payload := [11], iface_index := 0, frame_index := 1, transfer_id := 0,
    first_frame := false, last_frame := false, ts_monotonic := 110, ts_utc := 0 }

/-- Last frame of the three-frame scenario: data byte 12. -/
def c1f2 : RxFrame :=
  { payload := [12], iface_index := 0, frame_index := 2, transfer_id := 0,
    first_frame := false, last_frame := true, ts_monotonic := 120, ts_utc := 0 }

/-! ## Theorems -/

theorem two_pow_div_two {N : Nat} (hN : 1 ≤ N) : 2 ^ N / 2 = 2 ^ (N - 1) := by
  have h : 2 ^ N = 2 ^ (N - 1) * 2 := by
    rw [← pow_succ]
    congr 1
    omega
  rw [h, Nat.mul_div_cancel _ (by norm_num)]

theorem forwardDistance_lt (bitlen a b : Nat) :
    forwardDistance bitlen a b < 2 ^ bitlen := by
  unfold forwardDistance
  exact Nat.mod_lt _ (pow_pos (by norm_num) bitlen)

/-- C3: over the N-bit wraparound space, `getTidRelation` classifies the
incoming ID as SAME exactly when the forward distance from the expected ID
is 0, FUTURE exactly when it lies in `(0, 2^(N-1))`, and REPEAT exactly
when it lies in `[2^(N-1), 2^N)`. -/
theorem c3_tid_relation (N a b : Nat) (hN : 1 ≤ N) :
    (getTidRelationAt N a b = TidRelation.TID_SAME ↔ forwardDistance N a b = 0) ∧
    (getTidRelationAt N a b = TidRelation.TID_FUTURE ↔
      0 < forwardDistance N a b ∧ forwardDistance N a b < 2 ^ (N - 1)) ∧
    (getTidRelationAt N a b = TidRelation.TID_REPEAT ↔
      2 ^ (N - 1) ≤ forwardDistance N a b ∧ forwardDistance N a b < 2 ^ N) := by
  have hd := forwardDistance_lt N a b
  have hhalf := two_pow_div_two hN
  unfold getTidRelationAt
  rw [hhalf]
  split_ifs with h1 h2 <;>
    refine ⟨⟨fun _ => ?_, fun _ => ?_⟩, ⟨fun _ => ?_, fun _ => ?_⟩,
      ⟨fun _ => ?_, fun _ => ?_⟩⟩ <;> first | rfl | omega | simp_all

/-- Witness for C3 at N = 5, a = 3, b = 4 (distance 1, FUTURE). -/
theorem c3_tid_relation_witness :
    getTidRelationAt 5 3 4 = TidRelation.TID_FUTURE :=
  ((c3_tid_relation 5 3 4 (by decide)).2.1).mpr (by decide)

/-- C9: a frame whose monotonic timestamp is zero, or earlier than the
current or previous transfer-start timestamp, is dropped with
`RESULT_NOT_COMPLETE` and the whole state (and held buffer) is unchanged. -/
theorem c9_mono_guard (maxSize : Nat) (canCreate : Bool) (s : TransferReceiver)
    (tba : Option (List Nat)) (f : RxFrame)
    (h : f.ts_monotonic = 0 ∨ f.ts_monotonic < s.prev_transfer_ts_monotonic ∨
      f.ts_monotonic < s.this_transfer_ts_monotonic) :
    addFrame maxSize canCreate s tba f = (s, tba, ResultCode.RESULT_NOT_COMPLETE) := by
  have hg : monoGuardDrop s f = true := by
    simp only [monoGuardDrop, Bool.or_eq_true, decide_eq_true_eq]
    tauto
  simp [addFrame, hg]

/-- Witness for C9: a frame with timestamp 0 is dropped without effect. -/
theorem c9_mono_guard_witness :
    addFrame 8 true initialReceiver none
      { payload := [1], iface_index := 0, frame_index := 0, transfer_id := 0,
        first_frame := true, last_frame := true, ts_monotonic := 0, ts_utc := 0 } =
      (initialReceiver, none, ResultCode.RESULT_NOT_COMPLETE) :=
  c9_mono_guard 8 true initialReceiver none _ (Or.inl rfl)

/-- C5: when a restart trigger fires on a frame that is not a first-frame,
`addFrame` releases the held buffer, adopts the frame's interface and
transfer ID, resets the expected frame index, the write cursor and the CRC,
additionally advances the expected transfer ID one past the adopted value
(with wraparound), and returns `RESULT_NOT_COMPLETE` without validating or
assembling the frame. -/
theorem c5_restart_nonfirst (maxSize : Nat) (canCreate : Bool)
    (s : TransferReceiver) (tba : Option (List Nat)) (f : RxFrame)
    (hg : monoGuardDrop s f = false)
    (hr : needRestart s f = true)
    (hf : f.first_frame = false) :
    addFrame maxSize canCreate s tba f =
      ({ restartState s f with tid := tidIncrement f.transfer_id }, none,
        ResultCode.RESULT_NOT_COMPLETE) := by
  simp [addFrame, hg, hr, hf, admState, restartState]

/-- Witness for C5: an uninitialized receiver restarts on a stray
continuation frame and advances the TID past the adopted value. -/
theorem c5_restart_nonfirst_witness :
    addFrame 8 true initialReceiver (some [7])
      { payload := [1], iface_index := 2, frame_index := 1, transfer_id := 9,
        first_frame := false, last_frame := false, ts_monotonic := 55, ts_utc := 0 } =
      ({ restartState initialReceiver
          { payload := [1], iface_index := 2, frame_index := 1, transfer_id := 9,
            first_frame := false, last_frame := false, ts_monotonic := 55, ts_utc := 0 }
          with tid := tidIncrement 9 }, none, ResultCode.RESULT_NOT_COMPLETE) :=
  c5_restart_nonfirst 8 true initialReceiver (some [7]) _ (by decide) (by decide)
    (by decide)

theorem wrapSub64_eq_sub {a b : Nat} (hb : b ≤ a) (ha : a < 2 ^ 64) :
    wrapSub64 a b = a - b := by
  unfold wrapSub64
  have hb' : b < 2 ^ 64 := lt_of_le_of_lt hb ha
  rw [Nat.mod_eq_of_lt ha, Nat.mod_eq_of_lt hb']
  have h1 : a + (2 ^ 64 - b) = (a - b) + 2 ^ 64 := by omega
  rw [h1, Nat.add_mod_right, Nat.mod_eq_of_lt (by omega)]

/-- C10: the unsigned timestamp subtractions in `addFrame` never underflow —
past the monotonicity guard the frame's timestamp is at least the current
transfer-start timestamp, so the stale-interface subtraction equals the
exact difference, and `isTimedOut` returns false without subtracting
whenever `now` does not strictly exceed the recorded start. -/
theorem c10_no_underflow (s : TransferReceiver) (f : RxFrame)
    (ha : f.ts_monotonic < 2 ^ 64)
    (hg : monoGuardDrop s f = false) :
    s.this_transfer_ts_monotonic ≤ f.ts_monotonic ∧
    wrapSub64 f.ts_monotonic s.this_transfer_ts_monotonic =
      f.ts_monotonic - s.this_transfer_ts_monotonic ∧
    (∀ now, now ≤ s.this_transfer_ts_monotonic → isTimedOut s now = false) ∧
    (∀ now, now < 2 ^ 64 → s.this_transfer_ts_monotonic < now →
      wrapSub64 now s.this_transfer_ts_monotonic =
        now - s.this_transfer_ts_monotonic) := by
  have hle : s.this_transfer_ts_monotonic ≤ f.ts_monotonic := by
    simp only [monoGuardDrop, Bool.or_eq_false_iff, decide_eq_false_iff_not,
      Nat.not_lt] at hg
    omega
  refine ⟨hle, wrapSub64_eq_sub hle ha, fun now hnow => ?_, fun now h64 hlt =>
    wrapSub64_eq_sub (Nat.le_of_lt hlt) h64⟩
  simp [isTimedOut, hnow]

/-- Witness for C10 at a concrete state and frame past the guard. -/
theorem c10_no_underflow_witness :
    (1000 : Nat) ≤ 1500 ∧ wrapSub64 1500 1000 = 1500 - 1000 := by
  have h := c10_no_underflow
    { initialReceiver with
        this_transfer_ts_monotonic := 1000,
        prev_transfer_ts_monotonic := 500 }
    { payload := [], iface_index := 0, frame_index := 0, transfer_id := 0,
      first_frame := true, last_frame := true, ts_monotonic := 1500, ts_utc := 0 }
    (by norm_num) (by decide)
  exact ⟨h.1, h.2.1⟩

/-- C2 counterexample: with interface A's transfer mid-flight and not stale
(receiver timeout and the 2x-interval staleness both false), a first-frame
with a FUTURE transfer ID on interface B does NOT make the tracker switch:
`addFrame` returns `RESULT_NOT_COMPLETE`, the tracked interface stays 0,
and interface A's partial buffer is retained, not released. -/
theorem c2_counterexample :
    isInitialized c2State = true ∧
    isTimedOut c2State c2Frame.ts_monotonic = false ∧
    ifaceTimedOut c2State c2Frame = false ∧
    c2Frame.first_frame = true ∧
    getTidRelation c2State c2Frame = TidRelation.TID_FUTURE ∧
    c2Frame.iface_index ≠ c2State.iface_index ∧
    addFrame 100 true c2State (some [9]) c2Frame =
      (c2State, some [9], ResultCode.RESULT_NOT_COMPLETE) := by
  decide

/-- C2 amended: while a transfer is in progress and not yet stale, a frame
arriving on a different interface — in particular a first-frame with a
FUTURE transfer ID — is rejected with `RESULT_NOT_COMPLETE`; the tracker
keeps interface A's transfer and its partial buffer.  (The switch the
claim describes happens only when the receiver timed out or the current
interface is stale.) -/
theorem c2_no_switch_when_not_stale (maxSize : Nat) (canCreate : Bool)
    (s : TransferReceiver) (tba : Option (List Nat)) (f : RxFrame)
    (hg : monoGuardDrop s f = false)
    (hinit : isInitialized s = true)
    (hto : isTimedOut s f.ts_monotonic = false)
    (hstale : ifaceTimedOut s f = false)
    (hiface : f.iface_index ≠ s.iface_index) :
    addFrame maxSize canCreate s tba f = (s, tba, ResultCode.RESULT_NOT_COMPLETE) := by
  have hnr : needRestart s f = false := by
    simp [needRestart, hinit, hto, hstale, hiface]
  have hv : validate s f = false := by
    have hd : decide (s.iface_index = f.iface_index) = false :=
      decide_eq_false fun h => hiface h.symm
    simp [validate, hd]
  simp [addFrame, hg, hnr, hv, admState, admTba]

/-- Witness for the amended C2 at the concrete mid-flight scenario. -/
theorem c2_no_switch_when_not_stale_witness :
    addFrame 100 true c2State (some [9]) c2Frame =
      (c2State, some [9], ResultCode.RESULT_NOT_COMPLETE) :=
  c2_no_switch_when_not_stale 100 true c2State (some [9]) c2Frame
    (by decide) (by decide) (by decide) (by decide) (by decide)

/-- C6 counterexample: a frame of the completed transfer (same transfer ID,
stale index) replayed after the receiver timeout has expired still gets
`RESULT_NOT_COMPLETE`, but it mutates state: the restart path clears the
latched transfer CRC (4660 becomes 0) and releases the held buffer. -/
theorem c6_counterexample :
    getTidRelation c6State c6Frame = TidRelation.TID_REPEAT ∧
    c6Frame.frame_index ≠ c6State.next_frame_index ∧
    (addFrame 100 true c6State (some [9]) c6Frame).2.2 =
      ResultCode.RESULT_NOT_COMPLETE ∧
    c6State.this_transfer_crc = 4660 ∧
    (addFrame 100 true c6State (some [9]) c6Frame).1.this_transfer_crc = 0 ∧
    (addFrame 100 true c6State (some [9]) c6Frame).2.1 = none := by
  decide

/-- C6 amended: replaying an already-consumed frame (its transfer ID now
classifies as REPEAT) after its transfer completed is dropped with
`RESULT_NOT_COMPLETE` and mutates nothing, for any number of replays —
provided the replay happens before the receiver timeout expires.  (After
the timeout the restart path mutates state while still returning
`RESULT_NOT_COMPLETE`.) -/
theorem c6_replay_rejected (maxSize : Nat) (canCreate : Bool)
    (s : TransferReceiver) (tba : Option (List Nat)) (f : RxFrame)
    (hg : monoGuardDrop s f = false)
    (hinit : isInitialized s = true)
    (hto : isTimedOut s f.ts_monotonic = false)
    (hrep : getTidRelation s f = TidRelation.TID_REPEAT) :
    addFrame maxSize canCreate s tba f = (s, tba, ResultCode.RESULT_NOT_COMPLETE) ∧
    ∀ n, runFrames maxSize canCreate s tba (List.replicate n f) = (s, tba) ∧
      runResults maxSize canCreate s tba (List.replicate n f) =
        List.replicate n ResultCode.RESULT_NOT_COMPLETE := by
  have hnr : needRestart s f = false := by
    simp [needRestart, hinit, hto, hrep]
  have hv : validate s f = false := by
    simp [validate, hrep]
  have h1 : addFrame maxSize canCreate s tba f =
      (s, tba, ResultCode.RESULT_NOT_COMPLETE) := by
    simp [addFrame, hg, hnr, hv, admState, admTba]
  refine ⟨h1, fun n => ?_⟩
  induction n with
  | zero => exact ⟨rfl, rfl⟩
  | succ n ih =>
    constructor
    · simp only [List.replicate_succ, runFrames, h1, ih.1]
    · simp only [List.replicate_succ, runResults, h1, ih.2]

/-- Witness for the amended C6: the replayed stale frame, arriving before
the timeout, is rejected twice in a row without any state change. -/
theorem c6_replay_rejected_witness :
    addFrame 100 true c6State (some [9]) c6FrameEarly =
      (c6State, some [9], ResultCode.RESULT_NOT_COMPLETE) ∧
    runFrames 100 true c6State (some [9]) (List.replicate 2 c6FrameEarly) =
      (c6State, some [9]) := by
  have h := c6_replay_rejected 100 true c6State (some [9]) c6FrameEarly
    (by decide) (by decide) (by decide) (by decide)
  exact ⟨h.1, (h.2 2).1⟩

/-- C7: `writePayload` against any backing buffer `wr`: a first frame has
its first two payload bytes read little-endian into `this_transfer_crc`
and its remaining `payload_len - 2` bytes written at the cursor, a
non-first frame has its full payload written at the cursor; the write
succeeds exactly when the buffer reports accepting the requested count,
on success the cursor advances by exactly that count, and on failure it
is unchanged. -/
theorem c7_write_payload (wr : List Nat → Nat → List Nat → Int × List Nat)
    (s : TransferReceiver) (d : List Nat) (f : RxFrame)
    (h2 : f.first_frame = true → CRC_LEN ≤ f.payload.length) :
    ((writePayloadW wr s d f).1 = true ↔
      (wr d s.buffer_write_pos (effPayload f)).1 = ((effPayload f).length : Int)) ∧
    (writePayloadW wr s d f).2.2 = (wr d s.buffer_write_pos (effPayload f)).2 ∧
    (f.first_frame = true → effPayload f = f.payload.drop CRC_LEN ∧
      (writePayloadW wr s d f).2.1.this_transfer_crc = extractCrc f.payload) ∧
    (f.first_frame = false → effPayload f = f.payload ∧
      (writePayloadW wr s d f).2.1.this_transfer_crc = s.this_transfer_crc) ∧
    ((writePayloadW wr s d f).1 = true →
      (writePayloadW wr s d f).2.1.buffer_write_pos =
        s.buffer_write_pos + (effPayload f).length) ∧
    ((writePayloadW wr s d f).1 = false →
      (writePayloadW wr s d f).2.1.buffer_write_pos = s.buffer_write_pos) := by
  cases hf : f.first_frame with
  | false =>
    simp only [writePayloadW, effPayload, hf, Bool.false_eq_true, if_false]
    split_ifs with hres <;> simp_all
  | true =>
    have hlen : ¬ f.payload.length < CRC_LEN := by
      have := h2 hf
      omega
    simp only [writePayloadW, effPayload, hf, if_true, hlen, if_false]
    split_ifs with hres <;> simp_all

/-- Witness for C7: a successful first-frame write against an
always-accepting buffer extracts the CRC 0x0201 and advances the cursor
by the effective length 1. -/
theorem c7_write_payload_witness :
    (writePayloadW (fun d _ bs => ((bs.length : Int), d ++ bs)) initialReceiver []
        { payload := [1, 2, 3], iface_index := 0, frame_index := 0, transfer_id := 0,
          first_frame := true, last_frame := false, ts_monotonic := 5, ts_utc := 0
          }).2.1.this_transfer_crc = extractCrc [1, 2, 3] ∧
    (writePayloadW (fun d _ bs => ((bs.length : Int), d ++ bs)) initialReceiver []
        { payload := [1, 2, 3], iface_index := 0, frame_index := 0, transfer_id := 0,
          first_frame := true, last_frame := false, ts_monotonic := 5, ts_utc := 0
          }).2.1.buffer_write_pos = 0 + 1 := by
  have h := c7_write_payload (fun d _ bs => ((bs.length : Int), d ++ bs))
    initialReceiver []
    { payload := [1, 2, 3], iface_index := 0, frame_index := 0, transfer_id := 0,
      first_frame := true, last_frame := false, ts_monotonic := 5, ts_utc := 0 }
    (fun _ => by decide)
  exact ⟨(h.2.2.1 rfl).2, h.2.2.2.2.1 (by decide)⟩

/-- The adaptive-interval range of the spec. -/
def intervalInRange (x : Nat) : Prop :=
  MIN_TRANSFER_INTERVAL ≤ x ∧ x ≤ MAX_TRANSFER_INTERVAL

theorem clampInterval_mem (x : Nat) : intervalInRange (clampInterval x) := by
  unfold intervalInRange clampInterval MIN_TRANSFER_INTERVAL MAX_TRANSFER_INTERVAL
  omega

theorem updateTransferTimings_interval_mem {s : TransferReceiver}
    (h : intervalInRange s.transfer_interval) :
    intervalInRange (updateTransferTimings s).transfer_interval := by
  unfold updateTransferTimings
  split_ifs with hc
  · show intervalInRange ((s.transfer_interval * 7 +
      clampInterval (s.this_transfer_ts_monotonic -
        s.prev_transfer_ts_monotonic)) / 8 % U32_MOD)
    have hclamp := clampInterval_mem
      (s.this_transfer_ts_monotonic - s.prev_transfer_ts_monotonic)
    have hm : U32_MOD = 4294967296 := by norm_num [U32_MOD]
    unfold intervalInRange MIN_TRANSFER_INTERVAL MAX_TRANSFER_INTERVAL at *
    have hdiv : 1000 ≤ (s.transfer_interval * 7 +
        clampInterval (s.this_transfer_ts_monotonic -
          s.prev_transfer_ts_monotonic)) / 8 ∧
        (s.transfer_interval * 7 +
          clampInterval (s.this_transfer_ts_monotonic -
            s.prev_transfer_ts_monotonic)) / 8 ≤ 10000000 := by
      omega
    rw [Nat.mod_eq_of_lt (by omega)]
    exact hdiv
  · exact h

theorem writePayloadW_interval (wr : List Nat → Nat → List Nat → Int × List Nat)
    (s : TransferReceiver) (d : List Nat) (f : RxFrame) :
    (writePayloadW wr s d f).2.1.transfer_interval = s.transfer_interval := by
  simp only [writePayloadW]
  split_ifs <;> rfl

theorem admState_interval (s : TransferReceiver) (f : RxFrame) :
    (admState s f).transfer_interval = s.transfer_interval := by
  unfold admState restartState
  split_ifs <;> rfl

theorem receive_interval_mem (maxSize : Nat) (canCreate : Bool)
    (s : TransferReceiver) (tba : Option (List Nat)) (f : RxFrame)
    (h : intervalInRange s.transfer_interval) :
    intervalInRange (receive maxSize canCreate s tba f).1.transfer_interval := by
  have hupd : ∀ t : TransferReceiver, t.transfer_interval = s.transfer_interval →
      intervalInRange
        (prepareForNextTransfer (updateTransferTimings t)).transfer_interval := by
    intro t ht
    have h1 : intervalInRange t.transfer_interval := by rw [ht]; exact h
    simpa [prepareForNextTransfer] using updateTransferTimings_interval_mem h1
  cases hff : f.first_frame with
  | true =>
    cases hfl : f.last_frame with
    | true =>
      simp only [receive, hff, hfl, Bool.and_self, if_true]
      exact hupd _ rfl
    | false =>
      simp only [receive, hff, hfl, Bool.and_false, Bool.false_eq_true, if_false,
        if_true]
      cases tba with
      | some d =>
        simp only []
        by_cases hw : (writePayloadW (bufWrite maxSize)
            { s with this_transfer_ts_monotonic := f.ts_monotonic,
                     first_frame_ts_utc := f.ts_utc } d f).1
        · simp only [hw, if_true]
          exact h.imp (by simp [writePayloadW_interval]) (by simp [writePayloadW_interval])
        · simp only [hw, Bool.false_eq_true, if_false]
          simpa [prepareForNextTransfer, writePayloadW_interval] using h
      | none =>
        cases canCreate with
        | true =>
          simp only [if_true]
          by_cases hw : (writePayloadW (bufWrite maxSize)
              { s with this_transfer_ts_monotonic := f.ts_monotonic,
                       first_frame_ts_utc := f.ts_utc } [] f).1
          · simp only [hw, if_true]
            exact h.imp (by simp [writePayloadW_interval]) (by simp [writePayloadW_interval])
          · simp only [hw, Bool.false_eq_true, if_false]
            simpa [prepareForNextTransfer, writePayloadW_interval] using h
        | false => simpa [prepareForNextTransfer] using h
  | false =>
    simp only [receive, hff, Bool.false_and, Bool.false_eq_true, if_false]
    cases tba with
    | some d =>
      simp only []
      by_cases hw : (writePayloadW (bufWrite maxSize) s d f).1
      · by_cases hfl : f.last_frame
        · simp only [hw, hfl, if_true]
          exact hupd _ (by simp [writePayloadW_interval])
        · simp only [hw, hfl, if_true, Bool.false_eq_true, if_false]
          exact h.imp (by simp [writePayloadW_interval]) (by simp [writePayloadW_interval])
      · simp only [hw, Bool.false_eq_true, if_false]
        simpa [prepareForNextTransfer, writePayloadW_interval] using h
    | none =>
      cases canCreate with
      | true =>
        simp only [if_true]
        by_cases hw : (writePayloadW (bufWrite maxSize) s [] f).1
        · by_cases hfl : f.last_frame
          · simp only [hw, hfl, if_true]
            exact hupd _ (by simp [writePayloadW_interval])
          · simp only [hw, hfl, if_true, Bool.false_eq_true, if_false]
            exact h.imp (by simp [writePayloadW_interval]) (by simp [writePayloadW_interval])
        · simp only [hw, Bool.false_eq_true, if_false]
          simpa [prepareForNextTransfer, writePayloadW_interval] using h
      | false => simpa [prepareForNextTransfer] using h

theorem addFrame_interval_mem (maxSize : Nat) (canCreate : Bool)
    (s : TransferReceiver) (tba : Option (List Nat)) (f : RxFrame)
    (h : intervalInRange s.transfer_interval) :
    intervalInRange (addFrame maxSize canCreate s tba f).1.transfer_interval := by
  have hadm : intervalInRange (admState s f).transfer_interval := by
    rw [admState_interval]; exact h
  simp only [addFrame]
  split_ifs with h1 h2 h3
  · exact h
  · simpa using hadm
  · exact receive_interval_mem _ _ _ _ _ hadm
  · exact hadm

theorem runFrames_interval_mem (maxSize : Nat) (canCreate : Bool)
    (fs : List RxFrame) : ∀ (s : TransferReceiver) (tba : Option (List Nat)),
    intervalInRange s.transfer_interval →
    intervalInRange (runFrames maxSize canCreate s tba fs).1.transfer_interval := by
  induction fs with
  | nil => intro s tba h; exact h
  | cons f fs ih =>
    intro s tba h
    simp only [runFrames]
    exact ih _ _ (addFrame_interval_mem _ _ _ _ _ h)

/-- C4: from any state whose adaptive interval lies in
`[MIN_TRANSFER_INTERVAL, MAX_TRANSFER_INTERVAL]` (the initial state has the
default, which lies in the range), any sequence of frames leaves the
interval inside the range; a fold step averages the clamped gap with
weight 7/8 old and 1/8 new; and the estimate is unchanged when timestamps
are missing or non-monotonic. -/
theorem c4_interval_invariant (s : TransferReceiver)
    (h : intervalInRange s.transfer_interval) :
    (∀ (maxSize : Nat) (canCreate : Bool) (tba : Option (List Nat))
      (fs : List RxFrame),
      intervalInRange (runFrames maxSize canCreate s tba fs).1.transfer_interval) ∧
    (s.prev_transfer_ts_monotonic ≠ 0 → s.this_transfer_ts_monotonic ≠ 0 →
      s.prev_transfer_ts_monotonic ≤ s.this_transfer_ts_monotonic →
      (updateTransferTimings s).transfer_interval =
        (s.transfer_interval * 7 + clampInterval (s.this_transfer_ts_monotonic -
          s.prev_transfer_ts_monotonic)) / 8 % U32_MOD) ∧
    (s.prev_transfer_ts_monotonic = 0 ∨ s.this_transfer_ts_monotonic = 0 ∨
      s.this_transfer_ts_monotonic < s.prev_transfer_ts_monotonic →
      (updateTransferTimings s).transfer_interval = s.transfer_interval) ∧
    intervalInRange DEFAULT_TRANSFER_INTERVAL := by
  refine ⟨fun maxSize canCreate tba fs =>
      runFrames_interval_mem maxSize canCreate fs s tba h, ?_, ?_, by
        unfold intervalInRange DEFAULT_TRANSFER_INTERVAL MIN_TRANSFER_INTERVAL
          MAX_TRANSFER_INTERVAL
        omega⟩
  · intro h1 h2 h3
    simp [updateTransferTimings, h1, h2, h3]
  · intro hbad
    have hc : ¬ (s.prev_transfer_ts_monotonic ≠ 0 ∧
        s.this_transfer_ts_monotonic ≠ 0 ∧
        s.prev_transfer_ts_monotonic ≤ s.this_transfer_ts_monotonic) := by
      omega
    simp [updateTransferTimings, hc]

/-- Witness for C4 from the freshly initialized receiver through a
two-frame sequence that completes a transfer and folds in a gap sample. -/
theorem c4_interval_invariant_witness :
    intervalInRange (runFrames 100 true initialReceiver none
      [{ payload := [1, 2], iface_index := 0, frame_index := 0, transfer_id := 0,
         first_frame := true, last_frame := true, ts_monotonic := 50, ts_utc := 0 },
       { payload := [3], iface_index := 0, frame_index := 0, transfer_id := 1,
         first_frame := true, last_frame := true, ts_monotonic := 75,
         ts_utc := 0 }]).1.transfer_interval :=
  (c4_interval_invariant initialReceiver (by
      show intervalInRange DEFAULT_TRANSFER_INTERVAL
      unfold intervalInRange DEFAULT_TRANSFER_INTERVAL
        MIN_TRANSFER_INTERVAL MAX_TRANSFER_INTERVAL
      omega)).1 100 true none _

theorem updateTransferTimings_tid (s : TransferReceiver) :
    (updateTransferTimings s).tid = s.tid := by
  unfold updateTransferTimings
  split_ifs <;> rfl

theorem updateTransferTimings_prev (s : TransferReceiver) :
    (updateTransferTimings s).prev_transfer_ts_monotonic =
      s.this_transfer_ts_monotonic := by
  unfold updateTransferTimings
  split_ifs <;> rfl

theorem updateTransferTimings_this (s : TransferReceiver) :
    (updateTransferTimings s).this_transfer_ts_monotonic =
      s.this_transfer_ts_monotonic := by
  unfold updateTransferTimings
  split_ifs <;> rfl

/-- C8: a frame that is both first and last and passes admission and
validation yields `RESULT_SINGLE_FRAME`: the held buffer is released, the
timing update runs (both transfer-start timestamps land on the frame's
timestamp), the reset for the next transfer runs (expected transfer ID
incremented, frame index and write cursor zeroed), and `transfer_crc` is
set to 0. -/
theorem c8_single_frame (maxSize : Nat) (canCreate : Bool)
    (s : TransferReceiver) (tba : Option (List Nat)) (f : RxFrame)
    (hg : monoGuardDrop s f = false)
    (hff : f.first_frame = true) (hfl : f.last_frame = true)
    (hv : validate (admState s f) f = true) :
    ∃ s', addFrame maxSize canCreate s tba f =
        (s', none, ResultCode.RESULT_SINGLE_FRAME) ∧
      s'.this_transfer_crc = 0 ∧ s'.next_frame_index = 0 ∧
      s'.buffer_write_pos = 0 ∧ s'.tid = tidIncrement (admState s f).tid ∧
      s'.prev_transfer_ts_monotonic = f.ts_monotonic ∧
      s'.this_transfer_ts_monotonic = f.ts_monotonic := by
  have hstep : addFrame maxSize canCreate s tba f =
      ({ prepareForNextTransfer (updateTransferTimings
          { admState s f with
              this_transfer_ts_monotonic := f.ts_monotonic,
              first_frame_ts_utc := f.ts_utc }) with
          this_transfer_crc := 0 },
        none, ResultCode.RESULT_SINGLE_FRAME) := by
    simp [addFrame, hg, hff, hfl, hv, receive]
  refine ⟨_, hstep, rfl, rfl, rfl, ?_, ?_, ?_⟩
  · simp [prepareForNextTransfer, updateTransferTimings_tid]
  · simp [prepareForNextTransfer, updateTransferTimings_prev]
  · simp [prepareForNextTransfer, updateTransferTimings_this]

/-- Witness for C8: the concrete single-frame transfer completes with
`RESULT_SINGLE_FRAME`, zero CRC, incremented transfer ID and no buffer. -/
theorem c8_single_frame_witness :
    (addFrame 100 true c8State (some [9]) c8Frame).2.2 =
      ResultCode.RESULT_SINGLE_FRAME ∧
    (addFrame 100 true c8State (some [9]) c8Frame).2.1 = none ∧
    (addFrame 100 true c8State (some [9]) c8Frame).1.this_transfer_crc = 0 ∧
    (addFrame 100 true c8State (some [9]) c8Frame).1.tid = tidIncrement 4 := by
  obtain ⟨s', heq, hcrc, _, _, htid, _, _⟩ :=
    c8_single_frame 100 true c8State (some [9]) c8Frame
      (by decide) (by decide) (by decide) (by decide)
  rw [heq]
  refine ⟨rfl, rfl, hcrc, ?_⟩
  rw [htid]
  rfl

theorem listWriteAt_append (d bytes : List Nat) :
    listWriteAt d d.length bytes = d ++ bytes := by
  unfold listWriteAt
  rw [List.take_length, Nat.sub_self, List.replicate_zero,
    List.drop_eq_nil_of_le (by omega)]
  simp

theorem bufWrite_success (maxSize : Nat) (d bytes : List Nat) (offset : Nat)
    (hcap : offset + bytes.length ≤ maxSize) :
    bufWrite maxSize d offset bytes =
      ((bytes.length : Int), listWriteAt d offset bytes) := by
  unfold bufWrite
  have hmin : min bytes.length (maxSize - offset) = bytes.length := by omega
  simp [hmin, List.take_length]

theorem writePayload_nonfirst_success (maxSize : Nat) (s : TransferReceiver)
    (d : List Nat) (f : RxFrame) (hmf : f.first_frame = false)
    (hlen : d.length = s.buffer_write_pos)
    (hcap : s.buffer_write_pos + f.payload.length ≤ maxSize) :
    writePayloadW (bufWrite maxSize) s d f =
      (true, { s with buffer_write_pos := s.buffer_write_pos + f.payload.length },
        d ++ f.payload) := by
  simp only [writePayloadW, hmf, Bool.false_eq_true, if_false]
  rw [bufWrite_success maxSize d f.payload s.buffer_write_pos hcap, ← hlen,
    listWriteAt_append]
  simp

theorem writePayload_first_success (maxSize : Nat) (s : TransferReceiver)
    (d : List Nat) (f : RxFrame) (hff : f.first_frame = true)
    (h2 : CRC_LEN ≤ f.payload.length)
    (hlen : d.length = s.buffer_write_pos)
    (hcap : s.buffer_write_pos + (f.payload.length - CRC_LEN) ≤ maxSize) :
    writePayloadW (bufWrite maxSize) s d f =
      (true, { s with
          this_transfer_crc := extractCrc f.payload,
          buffer_write_pos := s.buffer_write_pos + (f.payload.length - CRC_LEN) },
        d ++ f.payload.drop CRC_LEN) := by
  have hlt : ¬ f.payload.length < CRC_LEN := by omega
  have hdlen : (f.payload.drop CRC_LEN).length = f.payload.length - CRC_LEN :=
    List.length_drop _ _
  simp only [writePayloadW, hff, if_true, hlt, if_false]
  rw [bufWrite_success maxSize d (f.payload.drop CRC_LEN) s.buffer_write_pos
      (by rw [hdlen]; exact hcap), ← hlen, listWriteAt_append]
  simp [hdlen]

theorem goodStep_parts {maxSize : Nat} {s : TransferReceiver} {f : RxFrame}
    (h : goodStep maxSize s f = true) :
    monoGuardDrop s f = false ∧
    (needRestart s f = false ∨ f.first_frame = true) ∧
    validate (admState s f) f = true ∧
    (admState s f).buffer_write_pos + (effPayload f).length ≤ maxSize := by
  simp only [goodStep, Bool.and_eq_true, Bool.or_eq_true, Bool.not_eq_true',
    decide_eq_true_eq] at h
  tauto

theorem goodStream_cons {maxSize : Nat} {canCreate : Bool} {s : TransferReceiver}
    {tba : Option (List Nat)} {f : RxFrame} {fs : List RxFrame}
    (h : goodStream maxSize canCreate s tba (f :: fs) = true) :
    goodStep maxSize s f = true ∧
    goodStream maxSize canCreate (addFrame maxSize canCreate s tba f).1
      (addFrame maxSize canCreate s tba f).2.1 fs = true := by
  simpa [goodStream, Bool.and_eq_true] using h

theorem addFrame_mid (maxSize : Nat) (canCreate : Bool) (s : TransferReceiver)
    (d : List Nat) (f : RxFrame)
    (hstep : goodStep maxSize s f = true) (hmf : f.first_frame = false)
    (hlen : d.length = s.buffer_write_pos) :
    addFrame maxSize canCreate s (some d) f =
      ((if f.last_frame then
          prepareForNextTransfer (updateTransferTimings
            { s with
                next_frame_index := s.next_frame_index + 1,
                buffer_write_pos := s.buffer_write_pos + f.payload.length })
        else
          { s with
              next_frame_index := s.next_frame_index + 1,
              buffer_write_pos := s.buffer_write_pos + f.payload.length }),
        some (d ++ f.payload),
        if f.last_frame then ResultCode.RESULT_COMPLETE
        else ResultCode.RESULT_NOT_COMPLETE) := by
  obtain ⟨hgd, hor, hv, hcap⟩ := goodStep_parts hstep
  have hnr : needRestart s f = false := by
    rcases hor with h | h
    · exact h
    · rw [hmf] at h
      exact absurd h (by simp)
  simp only [admState, hnr, Bool.false_eq_true, if_false] at hv hcap
  simp only [effPayload, hmf, Bool.false_eq_true, if_false] at hcap
  have hw := writePayload_nonfirst_success maxSize s d f hmf hlen hcap
  cases hlf : f.last_frame with
  | true =>
    simp [addFrame, hgd, hnr, hv, admState, admTba, receive, hmf, hlf, hw]
  | false =>
    simp [addFrame, hgd, hnr, hv, admState, admTba, receive, hmf, hlf, hw]

theorem addFrame_head (maxSize : Nat) (s : TransferReceiver)
    (tba : Option (List Nat)) (f : RxFrame)
    (hstep : goodStep maxSize s f = true) (hff : f.first_frame = true)
    (hfl : f.last_frame = false)
    (htba : admTba tba s f = none)
    (hpos : (admState s f).buffer_write_pos = 0) :
    addFrame maxSize true s tba f =
      ({ admState s f with
           this_transfer_ts_monotonic := f.ts_monotonic,
           first_frame_ts_utc := f.ts_utc,
           this_transfer_crc := extractCrc f.payload,
           next_frame_index := (admState s f).next_frame_index + 1,
           buffer_write_pos := f.payload.length - CRC_LEN },
        some (f.payload.drop CRC_LEN), ResultCode.RESULT_NOT_COMPLETE) := by
  obtain ⟨hgd, hor, hv, hcap⟩ := goodStep_parts hstep
  have h2 : CRC_LEN ≤ f.payload.length := by
    have hv' := hv
    simp only [validate, hff, hfl, Bool.and_eq_true, Bool.not_eq_true',
      Bool.and_eq_false_iff, Bool.not_false, Bool.true_and, Bool.and_true,
      decide_eq_true_eq, decide_eq_false_iff_not, Nat.not_lt, CRC_LEN] at hv'
    simp only [CRC_LEN]
    tauto
  simp only [effPayload, hff, if_true, List.length_drop] at hcap
  have hwrite := writePayload_first_success maxSize
    { admState s f with
        this_transfer_ts_monotonic := f.ts_monotonic,
        first_frame_ts_utc := f.ts_utc }
    [] f hff h2 (by simp [hpos]) (by simpa [hpos] using hcap)
  simp only [addFrame, hgd, Bool.false_eq_true, if_false, hff, Bool.not_true,
    Bool.and_false, hv, if_true, htba]
  simp only [receive, hff, hfl, Bool.and_false, if_true, Bool.false_eq_true,
    if_false]
  simp only [hwrite]
  simp [hpos]

theorem addFrame_single_code (maxSize : Nat) (canCreate : Bool)
    (s : TransferReceiver) (tba : Option (List Nat)) (f : RxFrame)
    (hgd : monoGuardDrop s f = false) (hff : f.first_frame = true)
    (hfl : f.last_frame = true)
    (hv : validate (admState s f) f = true) :
    (addFrame maxSize canCreate s tba f).2.2 = ResultCode.RESULT_SINGLE_FRAME := by
  simp [addFrame, hgd, hff, hfl, hv, receive]

theorem runResults_cons (maxSize : Nat) (canCreate : Bool)
    (s : TransferReceiver) (tba : Option (List Nat)) (f : RxFrame)
    (fs : List RxFrame) :
    runResults maxSize canCreate s tba (f :: fs) =
      (addFrame maxSize canCreate s tba f).2.2 ::
        runResults maxSize canCreate (addFrame maxSize canCreate s tba f).1
          (addFrame maxSize canCreate s tba f).2.1 fs := rfl

theorem runFrames_cons (maxSize : Nat) (canCreate : Bool)
    (s : TransferReceiver) (tba : Option (List Nat)) (f : RxFrame)
    (fs : List RxFrame) :
    runFrames maxSize canCreate s tba (f :: fs) =
      runFrames maxSize canCreate (addFrame maxSize canCreate s tba f).1
        (addFrame maxSize canCreate s tba f).2.1 fs := rfl

theorem c1_tail (maxSize : Nat) (rest : List RxFrame) :
    ∀ (s : TransferReceiver) (d : List Nat),
    midShape rest = true →
    goodStream maxSize true s (some d) rest = true →
    d.length = s.buffer_write_pos →
    runResults maxSize true s (some d) rest =
      List.replicate (rest.length - 1) ResultCode.RESULT_NOT_COMPLETE ++
        [ResultCode.RESULT_COMPLETE] ∧
    ∃ d', (runFrames maxSize true s (some d) rest).2 = some d' ∧
      d'.length = d.length + (rest.map fun g => g.payload.length).sum := by
  induction rest with
  | nil =>
    intro s d hmid _ _
    cases hmid
  | cons f rest2 ih =>
    intro s d hmid hgood hlen
    obtain ⟨hstep, hgood2⟩ := goodStream_cons hgood
    cases rest2 with
    | nil =>
      have hmf : f.first_frame = false ∧ f.last_frame = true := by
        simpa [midShape, Bool.and_eq_true, Bool.not_eq_true'] using hmid
      have hadd := addFrame_mid maxSize true s d f hstep hmf.1 hlen
      rw [hmf.2] at hadd
      simp only [if_true] at hadd
      refine ⟨?_, d ++ f.payload, ?_, ?_⟩
      · simp [runResults, hadd]
      · simp [runFrames, hadd]
      · simp
    | cons g rest3 =>
      have hmf := hmid
      simp only [midShape, Bool.and_eq_true, Bool.not_eq_true'] at hmf
      obtain ⟨⟨hmf1, hmf2⟩, hmf3⟩ := hmf
      have hadd := addFrame_mid maxSize true s d f hstep hmf1 hlen
      rw [hmf2] at hadd
      simp only [Bool.false_eq_true, if_false] at hadd
      rw [hadd] at hgood2
      simp only at hgood2
      obtain ⟨hres, d', hd', hlen'⟩ := ih
        { s with
            next_frame_index := s.next_frame_index + 1,
            buffer_write_pos := s.buffer_write_pos + f.payload.length }
        (d ++ f.payload) hmf3 hgood2
        (by simp [List.length_append, hlen])
      constructor
      · rw [runResults_cons, hadd]
        dsimp only
        rw [hres]
        simp [List.replicate_succ]
      · refine ⟨d', ?_, ?_⟩
        · rw [runFrames_cons, hadd]
          dsimp only
          exact hd'
        · simp only [List.map_cons, List.sum_cons, List.length_append] at *
          omega

/-- C1: a valid in-sequence stream — a first-frame followed by in-order
continuation frames ending in a last-frame, each passing admission and
validation at the state the run reaches, starting with a fresh buffer —
produces exactly one terminal result: `RESULT_SINGLE_FRAME` for a
single-frame stream, `RESULT_COMPLETE` for a multi-frame stream with
`RESULT_NOT_COMPLETE` for every earlier frame; in the multi-frame case the
bytes committed to the buffer are the frames' payload bytes minus the
2-byte CRC header taken from the first frame. -/
theorem c1_stream (maxSize : Nat) (s : TransferReceiver)
    (tba : Option (List Nat)) (f0 : RxFrame) (rest : List RxFrame)
    (hff : f0.first_frame = true)
    (hshape : if rest.isEmpty then f0.last_frame = true
      else f0.last_frame = false ∧ midShape rest = true)
    (hgood : goodStream maxSize true s tba (f0 :: rest) = true)
    (htba : admTba tba s f0 = none)
    (hpos : (admState s f0).buffer_write_pos = 0) :
    runResults maxSize true s tba (f0 :: rest) =
      List.replicate rest.length ResultCode.RESULT_NOT_COMPLETE ++
        [if rest.isEmpty then ResultCode.RESULT_SINGLE_FRAME
         else ResultCode.RESULT_COMPLETE] ∧
    (rest ≠ [] → ∃ d', (runFrames maxSize true s tba (f0 :: rest)).2 = some d' ∧
      d'.length + CRC_LEN =
        ((f0 :: rest).map fun g => g.payload.length).sum) := by
  obtain ⟨hstep, hgood2⟩ := goodStream_cons hgood
  obtain ⟨hgd, hor, hv, hcap⟩ := goodStep_parts hstep
  cases rest with
  | nil =>
    have hfl : f0.last_frame = true := by simpa using hshape
    have hcode := addFrame_single_code maxSize true s tba f0 hgd hff hfl hv
    refine ⟨?_, by simp⟩
    simp [runResults, hcode]
  | cons g rest2 =>
    have hshape' : f0.last_frame = false ∧ midShape (g :: rest2) = true := by
      simpa using hshape
    have h2 : CRC_LEN ≤ f0.payload.length := by
      have hv' := hv
      simp only [validate, hff, hshape'.1, Bool.and_eq_true, Bool.not_eq_true',
        Bool.and_eq_false_iff, Bool.not_false, Bool.true_and, Bool.and_true,
        decide_eq_true_eq, decide_eq_false_iff_not, Nat.not_lt, CRC_LEN] at hv'
      simp only [CRC_LEN]
      tauto
    have hadd := addFrame_head maxSize s tba f0 hstep hff hshape'.1 htba hpos
    rw [hadd] at hgood2
    simp only at hgood2
    obtain ⟨hres, d', hd', hlen'⟩ := c1_tail maxSize (g :: rest2)
      { admState s f0 with
          this_transfer_ts_monotonic := f0.ts_monotonic,
          first_frame_ts_utc := f0.ts_utc,
          this_transfer_crc := extractCrc f0.payload,
          next_frame_index := (admState s f0).next_frame_index + 1,
          buffer_write_pos := f0.payload.length - CRC_LEN }
      (f0.payload.drop CRC_LEN) hshape'.2 hgood2 (by simp [List.length_drop])
    constructor
    · rw [runResults_cons, hadd]
      dsimp only
      rw [hres]
      simp [List.replicate_succ]
    · intro _
      refine ⟨d', ?_, ?_⟩
      · rw [runFrames_cons, hadd]
        dsimp only
        exact hd'
      · simp only [List.length_drop, List.map_cons, List.sum_cons] at *
        omega

/-- Witness for C1: the spec's three-frame scenario (CRC 0x1234 plus bytes
10, 11, 12) run from the fresh receiver yields NOT_COMPLETE,
NOT_COMPLETE, COMPLETE. -/
theorem c1_stream_witness :
    runResults 100 true initialReceiver none [c1f0, c1f1, c1f2] =
      List.replicate 2 ResultCode.RESULT_NOT_COMPLETE ++
        [ResultCode.RESULT_COMPLETE] := by
  have h := c1_stream 100 initialReceiver none c1f0 [c1f1, c1f2]
    (by decide) (by decide) (by decide) (by decide) (by decide)
  simpa using h.1

end Uavcan
